import Mathlib

/-!
Shallow embedding of the churn-prediction serving core of the repository.

Two serving paths exist in the source and are both embedded here:
* the FastAPI backend (`src/backend/api/main.py`): `preprocess_customer_data`,
  `predict_churn`, `predict_churn_batch`;
* the consolidated frontend service (`src/frontend/prediction_service.py`):
  `ChurnPredictor._preprocess_data`, `ChurnPredictor.predict_single`,
  `ChurnPredictor.predict_batch`.

Probabilities and monetary amounts are modelled as rationals; pandas single-row
frames are modelled as name-indexed column lookups returning an optional value
(`Option Val`), where a missing column corresponds to a pandas `KeyError`.
-/

/-- Value stored in one column of a single-row frame: either a raw categorical
string or a numeric value. -/
inductive Val where
  | str (s : String)
  | num (q : ℚ)
deriving Repr, DecidableEq

/-- Raw customer record, mirroring the pydantic `CustomerData` schema
(`src/backend/api/schemas/models.py`).  The pydantic validators constrain
`SeniorCitizen` to {0,1} and `tenure` to 0..100; the string fields carry their
categorical domains. -/
structure CustomerData where
  gender : String
  SeniorCitizen : Int
  Partner : String
  Dependents : String
  tenure : Int
  Contract : String
  PaperlessBilling : String
  PaymentMethod : String
  MonthlyCharges : ℚ
  TotalCharges : ℚ
  PhoneService : String
  MultipleLines : String
  InternetService : String
  OnlineSecurity : String
  OnlineBackup : String
  DeviceProtection : String
  TechSupport : String
  StreamingTV : String
  StreamingMovies : String
deriving Repr, DecidableEq

/-- Decision policy of the backend endpoint (`main.py` line 306):
`"Will Churn" if churn_probability >= recommended_threshold else "Will Stay"`.
`T` is the configured `recommended_threshold`. -/
def churn_prediction (T p : ℚ) : String :=
  if p ≥ T then "Will Churn" else "Will Stay"

/-- Confidence level of the backend endpoint (`main.py` lines 309-314). -/
def confidence_level (p : ℚ) : String :=
  if p ≥ 0.8 ∨ p ≤ 0.2 then "High"
  else if p ≥ 0.6 ∨ p ≤ 0.4 then "Medium"
  else "Low"

/-- Risk category of the backend endpoint (`main.py` lines 317-325).  Note the
medium bound is the hard-coded constant `0.535`, not the configured threshold. -/
def risk_category (p : ℚ) : String :=
  if p ≥ 0.8 then "High Risk"
  else if p ≥ 0.535 then "Medium Risk"
  else "Low Risk"

/-- Binary prediction of the frontend service (`prediction_service.py` line 298):
`int(churn_probability > 0.535)`. -/
def ChurnPredictor.prediction (p : ℚ) : Int :=
  if p > 0.535 then 1 else 0

/-- Risk category of the frontend service (`prediction_service.py` lines 301-312):
strict comparisons, unlike the backend. -/
def ChurnPredictor.risk_category (p : ℚ) : String :=
  if p > 0.80 then "High Risk"
  else if p > 0.535 then "Medium Risk"
  else "Low Risk"

/-- Confidence field of the frontend service (`prediction_service.py`
lines 301-312): it is attached to the risk branch, not computed by the
backend's band rule. -/
def ChurnPredictor.confidence (p : ℚ) : String :=
  if p > 0.80 then "High"
  else if p > 0.535 then "Medium"
  else if p < 0.3 then "High" else "Medium"

/-- Fitted label encoder artifact: the ordered list of known classes; the code
of a class is its index in this list (sklearn `LabelEncoder`). -/
structure LabelEncoder where
  classes_ : List String
deriving Repr, DecidableEq

/-- Backend encoding of one categorical value (`main.py` lines 209-211):
`le.transform([x])[0] if x in le.classes_ else 0`. -/
def LabelEncoder.encodeFallbackZero (le : LabelEncoder) (x : String) : ℕ :=
  if x ∈ le.classes_ then le.classes_.indexOf x else 0

/-- Frontend encoding of one raw categorical value (`prediction_service.py`
lines 181-187): `encoder.transform(...)`, and on a `ValueError` (unseen value)
fall back to `encoder.transform([encoder.classes_[0]])`, the code of the first
fitted class.  `headD x` stands for `classes_[0]` of a fitted (nonempty)
encoder. -/
def LabelEncoder.encodeFallbackFirst (le : LabelEncoder) (x : String) : ℕ :=
  if x ∈ le.classes_ then le.classes_.indexOf x
  else le.classes_.indexOf (le.classes_.headD x)

/-- Lookup of `label_encoders[f]` in the artifact bundle, modelled as an
association list. -/
def lookupEncoder (encoders : List (String × LabelEncoder)) (f : String) :
    Option LabelEncoder :=
  (encoders.find? (fun e => e.1 == f)).map Prod.snd

/-- Theorems below refer to concrete sample records; this one has no adopted
services at all. -/
def sampleCustomer : CustomerData :=
  { gender := "Male", SeniorCitizen := 0, Partner := "No", Dependents := "No",
    tenure := 5, Contract := "Month-to-month", PaperlessBilling := "Yes",
    PaymentMethod := "Mailed check", MonthlyCharges := 50, TotalCharges := 250,
    PhoneService := "No", MultipleLines := "No", InternetService := "No",
    OnlineSecurity := "No", OnlineBackup := "No", DeviceProtection := "No",
    TechSupport := "No", StreamingTV := "No", StreamingMovies := "No" }

/-- Sample record with fiber-optic internet and phone service only. -/
def fiberPhoneCustomer : CustomerData :=
  { sampleCustomer with InternetService := "Fiber optic", PhoneService := "Yes" }

/-- Raw columns shared by both single-row frames (one per field of the record);
a name outside the schema yields `none` (no such column). -/
def CustomerData.rawColumn (c : CustomerData) (name : String) : Option Val :=
  if name = "gender" then some (.str c.gender)
  else if name = "SeniorCitizen" then some (.num c.SeniorCitizen)
  else if name = "Partner" then some (.str c.Partner)
  else if name = "Dependents" then some (.str c.Dependents)
  else if name = "tenure" then some (.num c.tenure)
  else if name = "Contract" then some (.str c.Contract)
  else if name = "PaperlessBilling" then some (.str c.PaperlessBilling)
  else if name = "PaymentMethod" then some (.str c.PaymentMethod)
  else if name = "MonthlyCharges" then some (.num c.MonthlyCharges)
  else if name = "TotalCharges" then some (.num c.TotalCharges)
  else if name = "PhoneService" then some (.str c.PhoneService)
  else if name = "MultipleLines" then some (.str c.MultipleLines)
  else if name = "InternetService" then some (.str c.InternetService)
  else if name = "OnlineSecurity" then some (.str c.OnlineSecurity)
  else if name = "OnlineBackup" then some (.str c.OnlineBackup)
  else if name = "DeviceProtection" then some (.str c.DeviceProtection)
  else if name = "TechSupport" then some (.str c.TechSupport)
  else if name = "StreamingTV" then some (.str c.StreamingTV)
  else if name = "StreamingMovies" then some (.str c.StreamingMovies)
  else none

/-- Service-field lookup used by the training-style loops. -/
def CustomerData.getService (c : CustomerData) (name : String) : String :=
  if name = "PhoneService" then c.PhoneService
  else if name = "MultipleLines" then c.MultipleLines
  else if name = "InternetService" then c.InternetService
  else if name = "OnlineSecurity" then c.OnlineSecurity
  else if name = "OnlineBackup" then c.OnlineBackup
  else if name = "DeviceProtection" then c.DeviceProtection
  else if name = "TechSupport" then c.TechSupport
  else if name = "StreamingTV" then c.StreamingTV
  else if name = "StreamingMovies" then c.StreamingMovies
  else ""

/-- Life-stage derivation of the backend (`main.py` lines 134-143). -/
def determine_life_stage (c : CustomerData) : String :=
  if c.SeniorCitizen = 1 then
    if c.Partner = "No" then "Senior Individual" else "Senior Couple"
  else
    if c.Partner = "No" then "Young Individual"
    else if c.Dependents = "Yes" then "Young Family"
    else "Young Couple"

/-- Tenure bucketing of the backend (`main.py` lines 181-187). -/
def categorize_tenure (tenure : Int) : String :=
  if tenure ≤ 12 then "New_Customer"
  else if tenure ≤ 36 then "Established_Customer"
  else "Long_Term_Customer"

/-- Bundle flag of the backend (`main.py` line 156): 1 iff every service of the
bundle equals "Yes" (the Yes-count reaches the bundle size). -/
def bundleFlag (vals : List String) : ℚ :=
  if vals.countP (· = "Yes") ≥ vals.length then 1 else 0

/-- Service list of the backend `calculate_service_score` (`main.py`
lines 161-162). -/
def high_value_services : List String :=
  ["InternetService", "OnlineSecurity", "OnlineBackup", "DeviceProtection",
   "TechSupport", "StreamingTV", "StreamingMovies"]

/-- Service adoption score of the backend (`main.py` lines 159-173): internet
tier (Fiber optic 2, DSL 1, otherwise 0) plus 1 per premium service equal to
"Yes". -/
def calculate_service_score (c : CustomerData) : ℕ :=
  high_value_services.foldl (fun score service =>
    if service = "InternetService" then
      if c.getService service = "Fiber optic" then score + 2
      else if c.getService service = "DSL" then score + 1
      else score
    else if c.getService service = "Yes" then score + 1 else score) 0

/-- Financial derived feature of the backend (`main.py` line 178). -/
def monthlyChargesPerService (c : CustomerData) : ℚ :=
  c.MonthlyCharges / ((calculate_service_score c : ℚ) + 1)

/-- Categorical feature list of the backend (`main.py` lines 196-203). -/
def categorical_features : List String :=
  ["gender", "SeniorCitizen_Label", "Partner", "Dependents",
   "PhoneService", "MultipleLines", "InternetService",
   "OnlineSecurity", "OnlineBackup", "DeviceProtection",
   "TechSupport", "StreamingTV", "StreamingMovies",
   "Contract", "PaperlessBilling", "PaymentMethod",
   "LifeStage", "TenureCategory"]

/-- String value of a categorical column of the backend frame (raw fields plus
the engineered `SeniorCitizen_Label`, `LifeStage`, `TenureCategory`); the
senior label mirrors `map({0: No, 1: Yes})` on the pydantic-constrained
{0,1} domain. -/
def categoricalValue (c : CustomerData) (name : String) : String :=
  if name = "SeniorCitizen_Label" then (if c.SeniorCitizen = 1 then "Yes" else "No")
  else if name = "LifeStage" then determine_life_stage c
  else if name = "TenureCategory" then categorize_tenure c.tenure
  else match c.rawColumn name with
    | some (.str s) => s
    | _ => ""

/-- Encoded column `f + "_encoded"` of the backend frame, present exactly when
`f` has a fitted encoder (`main.py` lines 205-211). -/
def encodedColumn (encoders : List (String × LabelEncoder)) (c : CustomerData)
    (f : String) : Option Val :=
  match lookupEncoder encoders f with
  | some le => some (.num (le.encodeFallbackZero (categoricalValue c f)))
  | none => none

/-- Column lookup over the backend's engineered single-row frame, as it stands
just before `df[model_features]` (`main.py` lines 126-211). -/
def df_column (encoders : List (String × LabelEncoder)) (c : CustomerData)
    (name : String) : Option Val :=
  match c.rawColumn name with
  | some v => some v
  | none =>
    if name = "SeniorCitizen_Label" then
      some (.str (categoricalValue c "SeniorCitizen_Label"))
    else if name = "LifeStage" then some (.str (determine_life_stage c))
    else if name = "SecurityBundle" then
      some (.num (bundleFlag [c.OnlineSecurity, c.OnlineBackup, c.DeviceProtection]))
    else if name = "StreamingBundle" then
      some (.num (bundleFlag [c.StreamingTV, c.StreamingMovies]))
    else if name = "OnlinePerksBundle" then
      some (.num (bundleFlag [c.OnlineSecurity, c.OnlineBackup, c.TechSupport]))
    else if name = "BasicSupportBundle" then
      some (.num (bundleFlag [c.TechSupport, c.DeviceProtection]))
    else if name = "ServiceAdoptionScore" then
      some (.num (calculate_service_score c))
    else if name = "MonthlyChargesPerService" then
      some (.num (monthlyChargesPerService c))
    else if name = "TenureCategory" then some (.str (categorize_tenure c.tenure))
    else if name = "HasFiberOptic" then
      some (.num (if c.InternetService = "Fiber optic" then 1 else 0))
    else if name = "HasInternet" then
      some (.num (if c.InternetService ≠ "No" then 1 else 0))
    else categorical_features.findSome? (fun f =>
      if name = f ++ "_encoded" then encodedColumn encoders c f else none)

/-- Continuous numeric features of the backend scaling step (`main.py`
line 217). -/
def numerical_features : List String :=
  ["tenure", "MonthlyCharges", "TotalCharges", "ServiceAdoptionScore",
   "MonthlyChargesPerService"]

/-- Projection `df[model_features]` of the backend (`main.py` line 214): a
missing column is a pandas `KeyError`, modelled as `none`. -/
def selectColumns (encoders : List (String × LabelEncoder)) (c : CustomerData) :
    List String → Option (List (String × Val))
  | [] => some []
  | f :: fs =>
    match df_column encoders c f with
    | some v => (selectColumns encoders c fs).map (fun rest => (f, v) :: rest)
    | none => none

/-- Columnwise scaler application: the fitted scaler transforms a numeric cell
of the named column. -/
def scaleCell (scaler : String → ℚ → ℚ) (col : String × Val) : Val :=
  match col.2 with
  | .num q => .num (scaler col.1 q)
  | .str s => .str s

/-- Backend preprocessing (`main.py` lines 119-223): engineer the frame, select
`model_features` in order (`KeyError` on a missing name), then scale exactly
the columns of `numerical_features` that occur among `model_features`. -/
def preprocess_customer_data (encoders : List (String × LabelEncoder))
    (model_features : List String) (scaler : String → ℚ → ℚ)
    (c : CustomerData) : Option (List Val) :=
  (selectColumns encoders c model_features).map (fun sel =>
    sel.map (fun col =>
      if col.1 ∈ numerical_features then scaleCell scaler col else col.2))

/-- Keys of `categorical_mappings` of the frontend service
(`prediction_service.py` lines 160-176). -/
def fe_categorical_mappings : List String :=
  ["gender", "Partner", "Dependents", "PhoneService", "MultipleLines",
   "InternetService", "OnlineSecurity", "OnlineBackup", "DeviceProtection",
   "TechSupport", "StreamingTV", "StreamingMovies", "Contract",
   "PaperlessBilling", "PaymentMethod"]

/-- Life-stage rule of the frontend service (`prediction_service.py`
lines 196-202); note it differs from the backend's. -/
def ChurnPredictor.lifeStage (c : CustomerData) : String :=
  if c.Partner = "No" ∧ c.Dependents = "No" then "Single"
  else if c.Partner = "Yes" ∧ c.Dependents = "No" then "Couple"
  else "Family"

/-- Tenure bucketing of the frontend service (`prediction_service.py`
lines 212-219). -/
def ChurnPredictor.tenureCategory (tenure : Int) : String :=
  if tenure ≤ 12 then "Short-term"
  else if tenure ≤ 36 then "Medium-term"
  else "Long-term"

/-- Engineered-category encoding of the frontend service
(`prediction_service.py` lines 205-209 and 221-225): `transform` inside a
`try`, any exception (an unseen category) yields 0. -/
def LabelEncoder.encodeOrZero (le : LabelEncoder) (x : String) : ℕ :=
  if x ∈ le.classes_ then le.classes_.indexOf x else 0

/-- Service-count columns of the frontend service (`prediction_service.py`
lines 228-229): nine service fields, including `PhoneService` and
`MultipleLines`. -/
def fe_service_columns : List String :=
  ["PhoneService", "MultipleLines", "InternetService", "OnlineSecurity",
   "OnlineBackup", "DeviceProtection", "TechSupport", "StreamingTV",
   "StreamingMovies"]

/-- `ServiceAdoptionScore` of the frontend service (`prediction_service.py`
lines 230-234): the count of the nine service columns equal to "Yes". -/
def ChurnPredictor.service_count (c : CustomerData) : ℕ :=
  fe_service_columns.foldl
    (fun n col => if c.getService col = "Yes" then n + 1 else n) 0

/-- `MonthlyChargesPerService` of the frontend service
(`prediction_service.py` lines 236-240): `MonthlyCharges / service_count` when
the count is positive, otherwise 0. -/
def ChurnPredictor.monthlyChargesPerService (c : CustomerData) : ℚ :=
  if ChurnPredictor.service_count c > 0 then
    c.MonthlyCharges / (ChurnPredictor.service_count c : ℚ)
  else 0

/-- Yes-count over a list of service values (the frontend bundles are counts,
not strict-membership flags). -/
def countYes (vals : List String) : ℚ :=
  (vals.countP (· = "Yes") : ℚ)

/-- Encoded raw-categorical column of the frontend frame
(`prediction_service.py` lines 178-187), present when the field has a fitted
encoder. -/
def fe_encodedColumn (encoders : List (String × LabelEncoder)) (c : CustomerData)
    (f : String) : Option Val :=
  match lookupEncoder encoders f with
  | some le =>
    match c.rawColumn f with
    | some (.str s) => some (.num (le.encodeFallbackFirst s))
    | _ => none
  | none => none

/-- Column lookup over the frontend's engineered single-row frame
(`prediction_service.py` lines 151-266), as it stands before the
missing-feature defaulting loop. -/
def fe_df_column (encoders : List (String × LabelEncoder)) (c : CustomerData)
    (name : String) : Option Val :=
  match c.rawColumn name with
  | some v => some v
  | none =>
    if name = "SeniorCitizen_Label_encoded" then some (.num c.SeniorCitizen)
    else if name = "LifeStage_encoded" then
      match lookupEncoder encoders "LifeStage" with
      | some le => some (.num (le.encodeOrZero (ChurnPredictor.lifeStage c)))
      | none => none
    else if name = "TenureCategory_encoded" then
      match lookupEncoder encoders "TenureCategory" with
      | some le => some (.num (le.encodeOrZero (ChurnPredictor.tenureCategory c.tenure)))
      | none => none
    else if name = "ServiceAdoptionScore" then
      some (.num (ChurnPredictor.service_count c))
    else if name = "MonthlyChargesPerService" then
      some (.num (ChurnPredictor.monthlyChargesPerService c))
    else if name = "SecurityBundle" then
      some (.num (countYes [c.OnlineSecurity, c.DeviceProtection, c.TechSupport]))
    else if name = "StreamingBundle" then
      some (.num (countYes [c.StreamingTV, c.StreamingMovies]))
    else if name = "OnlinePerksBundle" then
      some (.num (countYes [c.OnlineSecurity, c.OnlineBackup]))
    else if name = "BasicSupportBundle" then
      some (.num (countYes [c.TechSupport, c.DeviceProtection]))
    else if name = "HasFiberOptic" then
      some (.num (if c.InternetService = "Fiber optic" then 1 else 0))
    else if name = "HasInternet" then
      some (.num (if c.InternetService ≠ "No" then 1 else 0))
    else fe_categorical_mappings.findSome? (fun f =>
      if name = f ++ "_encoded" then fe_encodedColumn encoders c f else none)

/-- Frame after the defaulting loop of the frontend service
(`prediction_service.py` lines 269-272): a model feature absent from the frame
is added with value 0. -/
def fe_ensure_features (encoders : List (String × LabelEncoder))
    (c : CustomerData) (model_features : List String) (name : String) :
    Option Val :=
  match fe_df_column encoders c name with
  | some v => some v
  | none => if name ∈ model_features then some (.num 0) else none

/-- Frontend preprocessing (`prediction_service.py` lines 151-284): default
missing model features to 0, select `model_features` in order, then apply the
scaler to EVERY selected column (`self.scaler.transform(df_final)`). -/
def ChurnPredictor.preprocess_data (encoders : List (String × LabelEncoder))
    (model_features : List String) (scaler : String → ℚ → ℚ)
    (c : CustomerData) : List Val :=
  (model_features.map (fun f =>
    (f, (fe_ensure_features encoders c model_features f).getD (.num 0)))).map
    (scaleCell scaler)

/-- Row identifier attached by the backend batch endpoint (`main.py`
line 364). -/
def mkBatchId (i : ℕ) : String := "batch_" ++ toString i

/-- Row loop of the backend batch endpoint (`main.py` lines 360-374): each row
is scored independently; a row failure becomes an error entry carrying the
row's identifier, the others continue. -/
def predict_churn_batch_rows {α : Type} (predict : CustomerData → Except String α) :
    ℕ → List CustomerData → List (String × Except String α)
  | _, [] => []
  | i, c :: cs => (mkBatchId i, predict c) :: predict_churn_batch_rows predict (i + 1) cs

/-- Backend batch endpoint (`main.py` lines 349-380): batches above 100 rows
are rejected with an HTTP 400 before any row is scored; otherwise every row is
processed in order.  The per-row scorer is a parameter (the composition of
preprocessing and the external model). -/
def predict_churn_batch {α : Type} (predict : CustomerData → Except String α)
    (customers : List CustomerData) :
    Except String (List (String × Except String α)) :=
  if customers.length > 100 then
    Except.error "Batch size limited to 100 customers"
  else Except.ok (predict_churn_batch_rows predict 0 customers)

/-- Row loop of the frontend batch method (`prediction_service.py`
lines 328-344): ids are `i + 1`; a failing row becomes an error entry. -/
def ChurnPredictor.predict_batch_rows {α : Type}
    (predict : CustomerData → Except String α) :
    ℕ → List CustomerData → List (ℕ × Except String α)
  | _, [] => []
  | i, c :: cs =>
    (i + 1, predict c) :: ChurnPredictor.predict_batch_rows predict (i + 1) cs

/-- Frontend batch method (`prediction_service.py` lines 328-344): no size
cap. -/
def ChurnPredictor.predict_batch {α : Type}
    (predict : CustomerData → Except String α)
    (customers_data : List CustomerData) : List (ℕ × Except String α) :=
  ChurnPredictor.predict_batch_rows predict 0 customers_data

/-- C1 counterexample: at `p = 0.535`, the default threshold `T`, the frontend
service's binary prediction is 0 (WillStay), because
`prediction_service.py` line 298 compares with a strict `>`; the claim
requires WillChurn whenever `p ≥ T`, inclusive at the boundary. -/
theorem churn_prediction_boundary_cex :
    (0.535 : ℚ) ≥ 0.535 ∧ ChurnPredictor.prediction 0.535 = 0 ∧
      ChurnPredictor.prediction 0.535 ≠ 1 := by
  have h : ChurnPredictor.prediction 0.535 = 0 := by
    norm_num [ChurnPredictor.prediction]
  refine ⟨by norm_num, h, ?_⟩
  rw [h]; decide

/-- C1 (amended): the backend endpoint predicts WillChurn iff `p ≥ T`
(inclusive, so the label flips exactly once as `p` sweeps upward, at `p = T`,
and the prediction is monotone in `p`); the frontend service instead predicts
churn (1) iff `p > 0.535` strictly, so at exactly `p = 0.535` it predicts
WillStay (0). -/
theorem churn_prediction_threshold_rule (T p q : ℚ) :
    (churn_prediction T p = "Will Churn" ↔ T ≤ p) ∧
    (churn_prediction T p = "Will Stay" ↔ p < T) ∧
    churn_prediction T T = "Will Churn" ∧
    (churn_prediction T p = "Will Churn" → p ≤ q →
      churn_prediction T q = "Will Churn") ∧
    (ChurnPredictor.prediction p = 1 ↔ 0.535 < p) ∧
    (ChurnPredictor.prediction p = 0 ↔ p ≤ 0.535) := by
  refine ⟨?_, ?_, ?_, ?_, ?_, ?_⟩
  · unfold churn_prediction
    split_ifs with h
    · simpa using h
    · simpa using h
  · unfold churn_prediction
    split_ifs with h
    · simpa using not_lt.mpr h
    · simpa using not_le.mp h
  · unfold churn_prediction
    simp
  · intro h1 h2
    unfold churn_prediction at h1 ⊢
    by_cases ha : p ≥ T
    · have hb : q ≥ T := le_trans ha h2
      simp [hb]
    · simp [ha] at h1
  · unfold ChurnPredictor.prediction
    split_ifs with h
    · simpa using h
    · simpa using h
  · unfold ChurnPredictor.prediction
    split_ifs with h
    · simpa using not_le.mpr h
    · simpa using not_lt.mp h

/-- C1 witness: the threshold rule evaluated at `T = 0.535` for `p` below, at
and above the boundary, and the frontend prediction at the boundary. -/
theorem churn_prediction_threshold_rule_witness :
    churn_prediction 0.535 0.535 = "Will Churn" ∧
    churn_prediction 0.535 0.5 = "Will Stay" ∧
    churn_prediction 0.535 0.9 = "Will Churn" ∧
    ChurnPredictor.prediction 0.535 = 0 := by
  refine ⟨?_, ?_, ?_, ?_⟩
  · exact (churn_prediction_threshold_rule 0.535 0.535 0.535).2.2.1
  · exact (churn_prediction_threshold_rule 0.535 0.5 0.5).2.1.mpr (by norm_num)
  · exact (churn_prediction_threshold_rule 0.535 0.535 0.9).2.2.2.1
      ((churn_prediction_threshold_rule 0.535 0.535 0.9).2.2.1) (by norm_num)
  · exact (churn_prediction_threshold_rule 0.535 0.535
      0.535).2.2.2.2.2.mpr (by norm_num)

/-- C2 counterexample: at exactly `p = 0.80` the frontend service places the
customer in MediumRisk, not the claimed HighRisk, and at exactly `p = 0.535`
in LowRisk, not the claimed MediumRisk — `prediction_service.py`
lines 301-312 use strict comparisons. -/
theorem risk_category_boundary_cex :
    ChurnPredictor.risk_category 0.80 = "Medium Risk" ∧
      ChurnPredictor.risk_category 0.80 ≠ "High Risk" ∧
      ChurnPredictor.risk_category 0.535 = "Low Risk" ∧
      ChurnPredictor.risk_category 0.535 ≠ "Medium Risk" := by
  have h1 : ChurnPredictor.risk_category 0.80 = "Medium Risk" := by
    norm_num [ChurnPredictor.risk_category]
  have h2 : ChurnPredictor.risk_category 0.535 = "Low Risk" := by
    norm_num [ChurnPredictor.risk_category]
  refine ⟨h1, ?_, h2, ?_⟩
  · rw [h1]; simp
  · rw [h2]; simp

/-- C2 (amended): the backend endpoint uses inclusive bounds exactly as the
claim states them — HighRisk iff `p ≥ 0.80`, else MediumRisk iff `p ≥ 0.535`
(a hard-coded constant, independent of the configured threshold), else
LowRisk; the frontend service uses strict bounds, so at exactly `p = 0.80` it
yields MediumRisk and at exactly `p = 0.535` LowRisk. -/
theorem risk_category_rule (p : ℚ) :
    (risk_category p = "High Risk" ↔ 0.8 ≤ p) ∧
    (risk_category p = "Medium Risk" ↔ 0.535 ≤ p ∧ p < 0.8) ∧
    (risk_category p = "Low Risk" ↔ p < 0.535) ∧
    (ChurnPredictor.risk_category p = "High Risk" ↔ 0.80 < p) ∧
    (ChurnPredictor.risk_category p = "Medium Risk" ↔ 0.535 < p ∧ p ≤ 0.80) ∧
    (ChurnPredictor.risk_category p = "Low Risk" ↔ p ≤ 0.535) := by
  refine ⟨?_, ?_, ?_, ?_, ?_, ?_⟩
  · unfold risk_category
    split_ifs with h1 h2 <;> simpa using h1
  · unfold risk_category
    split_ifs with h1 h2
    · constructor
      · intro hfalse; exact absurd hfalse (by decide)
      · rintro ⟨-, h3⟩; exact absurd h3 (not_lt.mpr h1)
    · exact ⟨fun _ => ⟨h2, lt_of_not_ge h1⟩, fun _ => rfl⟩
    · constructor
      · intro hfalse; exact absurd hfalse (by decide)
      · rintro ⟨h3, -⟩; exact absurd h3 h2
  · unfold risk_category
    split_ifs with h1 h2
    · constructor
      · intro hfalse; exact absurd hfalse (by decide)
      · intro h3; exact absurd (le_trans (by norm_num) h1) (not_le.mpr h3)
    · constructor
      · intro hfalse; exact absurd hfalse (by decide)
      · intro h3; exact absurd h2 (not_le.mpr h3)
    · exact ⟨fun _ => lt_of_not_ge h2, fun _ => rfl⟩
  · unfold ChurnPredictor.risk_category
    split_ifs with h1 h2 <;> simpa using h1
  · unfold ChurnPredictor.risk_category
    split_ifs with h1 h2
    · constructor
      · intro hfalse; exact absurd hfalse (by decide)
      · rintro ⟨-, h3⟩; exact absurd h1 (not_lt.mpr h3)
    · exact ⟨fun _ => ⟨h2, not_lt.mp h1⟩, fun _ => rfl⟩
    · constructor
      · intro hfalse; exact absurd hfalse (by decide)
      · rintro ⟨h3, -⟩; exact absurd h3 h2
  · unfold ChurnPredictor.risk_category
    split_ifs with h1 h2
    · constructor
      · intro hfalse; exact absurd hfalse (by decide)
      · intro h3; exact absurd (lt_of_le_of_lt h3 (by norm_num)) (not_lt.mpr (le_of_lt h1))
    · constructor
      · intro hfalse; exact absurd hfalse (by decide)
      · intro h3; exact absurd h2 (not_lt.mpr h3)
    · exact ⟨fun _ => not_lt.mp h2, fun _ => rfl⟩

/-- C3 counterexample: at `p = 0.5` the claim's rule demands confidence Low
(`0.5` is neither `≥ 0.6` nor `≤ 0.4`), but the frontend service reports
Medium — its confidence is attached to the risk branches
(`prediction_service.py` lines 301-312), not computed by the claimed band
rule, and it never reports Low. -/
theorem confidence_level_cex :
    ChurnPredictor.confidence 0.5 = "Medium" ∧
      ¬((0.5 : ℚ) ≥ 0.6 ∨ (0.5 : ℚ) ≤ 0.4) := by
  constructor
  · norm_num [ChurnPredictor.confidence]
  · norm_num

/-- C3 (amended): the backend endpoint computes the confidence level exactly
by the claimed first-match rule — High iff `p ≥ 0.8 ∨ p ≤ 0.2`, else Medium
iff `p ≥ 0.6 ∨ p ≤ 0.4`, else Low — and attains all three values; the
frontend service instead reports High iff `p > 0.80 ∨ p < 0.3` and Medium
otherwise, and never reports Low. -/
theorem confidence_level_rule (p : ℚ) :
    (confidence_level p = "High" ↔ (0.8 ≤ p ∨ p ≤ 0.2)) ∧
    (confidence_level p = "Medium" ↔
      (¬(0.8 ≤ p ∨ p ≤ 0.2) ∧ (0.6 ≤ p ∨ p ≤ 0.4))) ∧
    (confidence_level p = "Low" ↔ (0.4 < p ∧ p < 0.6)) ∧
    confidence_level 0.9 = "High" ∧ confidence_level 0.65 = "Medium" ∧
    confidence_level 0.5 = "Low" ∧
    (ChurnPredictor.confidence p = "High" ↔ (0.80 < p ∨ p < 0.3)) ∧
    (ChurnPredictor.confidence p = "Medium" ↔ (0.3 ≤ p ∧ p ≤ 0.80)) ∧
    ChurnPredictor.confidence p ≠ "Low" := by
  refine ⟨?_, ?_, ?_, ?_, ?_, ?_, ?_, ?_, ?_⟩
  · unfold confidence_level
    split_ifs with h1 h2 <;> simpa using h1
  · unfold confidence_level
    split_ifs with h1 h2
    · constructor
      · intro hfalse; exact absurd hfalse (by decide)
      · rintro ⟨h3, -⟩; exact absurd h1 h3
    · exact ⟨fun _ => ⟨h1, h2⟩, fun _ => rfl⟩
    · constructor
      · intro hfalse; exact absurd hfalse (by decide)
      · rintro ⟨-, h3⟩; exact absurd h3 h2
  · unfold confidence_level
    split_ifs with h1 h2
    · constructor
      · intro hfalse; exact absurd hfalse (by decide)
      · rintro ⟨h3, h4⟩
        rcases h1 with h1 | h1
        · exact absurd (lt_of_le_of_lt h1 h4) (by norm_num)
        · exact absurd (lt_of_lt_of_le h3 h1) (by norm_num)
    · constructor
      · intro hfalse; exact absurd hfalse (by decide)
      · rintro ⟨h3, h4⟩
        rcases h2 with h2 | h2
        · exact absurd h2 (not_le.mpr h4)
        · exact absurd h2 (not_le.mpr h3)
    · push_neg at h1 h2
      exact ⟨fun _ => ⟨h2.2, h2.1⟩, fun _ => rfl⟩
  · norm_num [confidence_level]
  · norm_num [confidence_level]
  · norm_num [confidence_level]
  · unfold ChurnPredictor.confidence
    split_ifs with h1 h2 h3
    · simpa using Or.inl h1
    · constructor
      · intro hfalse; exact absurd hfalse (by decide)
      · rintro (h4 | h4)
        · exact absurd h4 h1
        · exact absurd h2 (not_lt.mpr (le_of_lt (lt_of_lt_of_le h4 (by norm_num))))
    · simpa using Or.inr h3
    · constructor
      · intro hfalse; exact absurd hfalse (by decide)
      · rintro (h4 | h4)
        · exact absurd h4 h1
        · exact absurd h4 h3
  · unfold ChurnPredictor.confidence
    split_ifs with h1 h2 h3
    · constructor
      · intro hfalse; exact absurd hfalse (by decide)
      · rintro ⟨-, h4⟩; exact absurd h1 (not_lt.mpr h4)
    · exact ⟨fun _ => ⟨le_trans (by norm_num) (le_of_lt h2),
        not_lt.mp h1⟩, fun _ => rfl⟩
    · constructor
      · intro hfalse; exact absurd hfalse (by decide)
      · rintro ⟨h4, -⟩; exact absurd h3 (not_lt.mpr h4)
    · exact ⟨fun _ => ⟨not_lt.mp h3, not_lt.mp h1⟩, fun _ => rfl⟩
  · unfold ChurnPredictor.confidence
    split_ifs <;> decide

/-- C3 witness: the confidence rule evaluated at concrete probabilities. -/
theorem confidence_level_rule_witness :
    confidence_level 0.85 = "High" ∧
      ChurnPredictor.confidence 0.5 ≠ "Low" := by
  constructor
  · exact (confidence_level_rule 0.85).1.mpr (Or.inl (by norm_num))
  · exact (confidence_level_rule 0.5).2.2.2.2.2.2.2.2

/-- Rewriting step used to flatten the training-style accumulator loops into
sums of indicators. -/
theorem ite_add_shift (P : Prop) [Decidable P] (n k : ℕ) :
    (if P then n + k else n) = n + (if P then k else 0) := by
  split_ifs <;> omega

/-- C4 counterexample: `sampleCustomer` adopts no services, so the frontend
service computes `ServiceAdoptionScore = 0` and then sets
`MonthlyChargesPerService` to 0 (`prediction_service.py` lines 236-240)
instead of the claimed `monthlyCharges / (0 + 1) = monthlyCharges = 50`: the
frontend divides by the bare service count, not by `score + 1`. -/
theorem monthly_charges_per_service_cex :
    ChurnPredictor.service_count sampleCustomer = 0 ∧
      ChurnPredictor.monthlyChargesPerService sampleCustomer = 0 ∧
      sampleCustomer.MonthlyCharges = 50 ∧
      ChurnPredictor.monthlyChargesPerService sampleCustomer ≠
        sampleCustomer.MonthlyCharges := by
  have h0 : ChurnPredictor.service_count sampleCustomer = 0 := by
    simp [ChurnPredictor.service_count, fe_service_columns,
      CustomerData.getService, sampleCustomer]
  have h1 : ChurnPredictor.monthlyChargesPerService sampleCustomer = 0 := by
    simp [ChurnPredictor.monthlyChargesPerService, h0]
  refine ⟨h0, h1, rfl, ?_⟩
  rw [h1]
  norm_num [sampleCustomer]

/-- C4 (amended): the backend computes
`monthlyChargesPerService = monthlyCharges / (serviceAdoptionScore + 1)` with
a denominator that is never zero, and at score 0 the result is exactly
`monthlyCharges`; the frontend service instead divides by the bare service
count when it is positive and otherwise outputs 0, so at its score 0 it
yields 0, not `monthlyCharges`.  Neither path can divide by zero. -/
theorem monthly_charges_per_service_rule (c : CustomerData) :
    monthlyChargesPerService c =
      c.MonthlyCharges / ((calculate_service_score c : ℚ) + 1) ∧
    ((calculate_service_score c : ℚ) + 1 ≠ 0) ∧
    (calculate_service_score c = 0 →
      monthlyChargesPerService c = c.MonthlyCharges) ∧
    (ChurnPredictor.service_count c = 0 →
      ChurnPredictor.monthlyChargesPerService c = 0) ∧
    (0 < ChurnPredictor.service_count c →
      ChurnPredictor.monthlyChargesPerService c =
        c.MonthlyCharges / (ChurnPredictor.service_count c : ℚ)) := by
  refine ⟨rfl, ?_, ?_, ?_, ?_⟩
  · positivity
  · intro h; simp [monthlyChargesPerService, h]
  · intro h; simp [ChurnPredictor.monthlyChargesPerService, h]
  · intro h; simp [ChurnPredictor.monthlyChargesPerService, h]

/-- C4 witness: the amended rule instantiated at `sampleCustomer`, whose
adoption score is 0 on both paths. -/
theorem monthly_charges_per_service_rule_witness :
    monthlyChargesPerService sampleCustomer = sampleCustomer.MonthlyCharges ∧
      ChurnPredictor.monthlyChargesPerService sampleCustomer = 0 := by
  constructor
  · exact (monthly_charges_per_service_rule sampleCustomer).2.2.1 rfl
  · exact (monthly_charges_per_service_rule sampleCustomer).2.2.2.1 rfl

/-- C7 counterexample: for `fiberPhoneCustomer` (fiber-optic internet and
phone service only) the claimed formula gives `2 + 0 = 2`, and the backend
agrees, but the frontend frame's `ServiceAdoptionScore` is 1: the frontend
counts "Yes" over nine service columns including `PhoneService` and gives no
tier credit for fiber (`prediction_service.py` lines 227-234). -/
theorem service_adoption_score_cex :
    calculate_service_score fiberPhoneCustomer = 2 ∧
      ChurnPredictor.service_count fiberPhoneCustomer = 1 ∧
      fe_df_column [] fiberPhoneCustomer "ServiceAdoptionScore" =
        some (Val.num 1) ∧
      (1 : ℕ) ≠ 2 := by
  refine ⟨?_, ?_, ?_, by decide⟩
  · simp [calculate_service_score, high_value_services,
      CustomerData.getService, fiberPhoneCustomer, sampleCustomer]
  · simp [ChurnPredictor.service_count, fe_service_columns,
      CustomerData.getService, fiberPhoneCustomer, sampleCustomer]
  · simp [fe_df_column, CustomerData.rawColumn, fiberPhoneCustomer,
      sampleCustomer, ChurnPredictor.service_count, fe_service_columns,
      CustomerData.getService]

/-- C7 (amended): the backend's `ServiceAdoptionScore` follows the claim —
internet tier (Fiber optic 2, DSL 1, otherwise 0) plus one per premium
service equal to "Yes", with `PhoneService` and `MultipleLines` contributing
nothing; the frontend service instead counts "Yes" over nine service columns
(including `PhoneService` and `MultipleLines`, and with `InternetService`
contributing only on the impossible value "Yes"). -/
theorem service_adoption_score_rule (c : CustomerData) (p m : String) :
    calculate_service_score c =
      (if c.InternetService = "Fiber optic" then 2
       else if c.InternetService = "DSL" then 1 else 0) +
      ((if c.OnlineSecurity = "Yes" then 1 else 0) +
       (if c.OnlineBackup = "Yes" then 1 else 0) +
       (if c.DeviceProtection = "Yes" then 1 else 0) +
       (if c.TechSupport = "Yes" then 1 else 0) +
       (if c.StreamingTV = "Yes" then 1 else 0) +
       (if c.StreamingMovies = "Yes" then 1 else 0)) ∧
    calculate_service_score { c with PhoneService := p, MultipleLines := m } =
      calculate_service_score c ∧
    ChurnPredictor.service_count c =
      (if c.PhoneService = "Yes" then 1 else 0) +
      ((if c.MultipleLines = "Yes" then 1 else 0) +
       (if c.InternetService = "Yes" then 1 else 0) +
       (if c.OnlineSecurity = "Yes" then 1 else 0) +
       (if c.OnlineBackup = "Yes" then 1 else 0) +
       (if c.DeviceProtection = "Yes" then 1 else 0) +
       (if c.TechSupport = "Yes" then 1 else 0) +
       (if c.StreamingTV = "Yes" then 1 else 0) +
       (if c.StreamingMovies = "Yes" then 1 else 0)) := by
  refine ⟨?_, ?_, ?_⟩
  · simp [calculate_service_score, high_value_services,
      CustomerData.getService, ite_add_shift]
    ring
  · simp [calculate_service_score, high_value_services,
      CustomerData.getService, ite_add_shift]
  · simp [ChurnPredictor.service_count, fe_service_columns,
      CustomerData.getService, ite_add_shift]
    ring

/-- Mapping over an optional value does not change whether it is present. -/
theorem isSome_map_eq {α β : Type} (o : Option α) (f : α → β) :
    (o.map f).isSome = o.isSome := by
  cases o <;> rfl

/-- Scanning a list with two lookup functions that succeed on the same
entries succeeds on the same lists. -/
theorem findSome?_isSome_congr {α β : Type} (l : List α) (f g : α → Option β)
    (h : ∀ a ∈ l, (f a).isSome = (g a).isSome) :
    (l.findSome? f).isSome = (l.findSome? g).isSome := by
  induction l with
  | nil => rfl
  | cons a t ih =>
    have ha := h a (by simp)
    cases hfa : f a with
    | some b =>
      cases hga : g a with
      | some b2 => simp [List.findSome?, hfa, hga]
      | none => rw [hfa, hga] at ha; simp at ha
    | none =>
      cases hga : g a with
      | some b2 => rw [hfa, hga] at ha; simp at ha
      | none =>
        simp only [List.findSome?, hfa, hga]
        exact ih (fun x hx => h x (List.mem_cons_of_mem a hx))

/-- Whether a raw column exists depends only on its name, not on the record's
values. -/
theorem rawColumn_isSome_indep (c c' : CustomerData) (name : String) :
    (c.rawColumn name).isSome = (c'.rawColumn name).isSome := by
  unfold CustomerData.rawColumn
  simp only [apply_ite Option.isSome, Option.isSome_some, Option.isSome_none]

/-- Whether a backend encoded column exists depends only on the fitted
encoders. -/
theorem encodedColumn_isSome_indep (encoders : List (String × LabelEncoder))
    (c c' : CustomerData) (f : String) :
    (encodedColumn encoders c f).isSome = (encodedColumn encoders c' f).isSome := by
  unfold encodedColumn
  cases lookupEncoder encoders f <;> rfl

/-- Whether a column of the backend's engineered frame exists depends only on
its name and the fitted encoders — in particular not on any categorical value
of the record, seen or unseen. -/
theorem df_column_isSome_indep (encoders : List (String × LabelEncoder))
    (c c' : CustomerData) (name : String) :
    (df_column encoders c name).isSome = (df_column encoders c' name).isSome := by
  have hraw := rawColumn_isSome_indep c c' name
  unfold df_column
  cases hra : c.rawColumn name with
  | some v =>
    cases hrb : c'.rawColumn name with
    | some w => rfl
    | none => rw [hra, hrb] at hraw; simp at hraw
  | none =>
    cases hrb : c'.rawColumn name with
    | some w => rw [hra, hrb] at hraw; simp at hraw
    | none =>
      have hf := findSome?_isSome_congr categorical_features
        (fun f => if name = f ++ "_encoded" then encodedColumn encoders c f else none)
        (fun f => if name = f ++ "_encoded" then encodedColumn encoders c' f else none)
        (fun f _ => by
          by_cases hname : name = f ++ "_encoded"
          · simp only [if_pos hname]
            exact encodedColumn_isSome_indep encoders c c' f
          · simp only [if_neg hname])
      simp only [apply_ite Option.isSome, Option.isSome_some, Option.isSome_none, hf]

/-- Whether the backend projection `df[model_features]` succeeds depends only
on the feature list and the fitted encoders. -/
theorem selectColumns_isSome_indep (encoders : List (String × LabelEncoder))
    (c c' : CustomerData) (fs : List String) :
    (selectColumns encoders c fs).isSome = (selectColumns encoders c' fs).isSome := by
  induction fs with
  | nil => rfl
  | cons f t ih =>
    have h := df_column_isSome_indep encoders c c' f
    unfold selectColumns
    cases h1 : df_column encoders c f with
    | some v =>
      cases h2 : df_column encoders c' f with
      | some w => simpa using ih
      | none => rw [h1, h2] at h; simp at h
    | none =>
      cases h2 : df_column encoders c' f with
      | some w => rw [h1, h2] at h; simp at h
      | none => rfl

/-- C6: an unseen categorical value never aborts a prediction.  The backend
lambda (`main.py` lines 209-211) substitutes integer code 0 directly; the
frontend (`prediction_service.py` lines 181-187) substitutes the encoder's
first fitted class `classes_[0]`, whose code is 0 — the code of the first
listed category; and whether the backend preprocessing succeeds is a function
of the feature list and the encoders alone, never of the record's categorical
values, so the prediction completes normally. -/
theorem unseen_category_fallback (le : LabelEncoder) (x : String)
    (hne : le.classes_ ≠ []) (hx : x ∉ le.classes_) :
    le.encodeFallbackZero x = 0 ∧ le.encodeFallbackFirst x = 0 ∧
      le.classes_.indexOf (le.classes_.headD x) = 0 ∧
      (∀ (encoders : List (String × LabelEncoder)) (model_features : List String)
        (scaler : String → ℚ → ℚ) (c c' : CustomerData),
        (preprocess_customer_data encoders model_features scaler c).isSome =
          (preprocess_customer_data encoders model_features scaler c').isSome) := by
  have hhead : le.classes_.indexOf (le.classes_.headD x) = 0 := by
    cases h : le.classes_ with
    | nil => exact absurd h hne
    | cons a t => simp [List.indexOf_cons_self]
  refine ⟨?_, ?_, hhead, ?_⟩
  · unfold LabelEncoder.encodeFallbackZero
    simp [hx]
  · unfold LabelEncoder.encodeFallbackFirst
    simp only [if_neg hx]
    exact hhead
  · intro encoders model_features scaler c c'
    unfold preprocess_customer_data
    simp [selectColumns_isSome_indep encoders c c' model_features]

/-- Projection `df[model_features]` succeeds exactly when every requested
feature is a populated column. -/
theorem selectColumns_isSome_iff (encoders : List (String × LabelEncoder))
    (c : CustomerData) (fs : List String) :
    (selectColumns encoders c fs).isSome ↔
      ∀ f ∈ fs, (df_column encoders c f).isSome := by
  induction fs with
  | nil => simp [selectColumns]
  | cons f t ih =>
    unfold selectColumns
    cases h1 : df_column encoders c f with
    | some v =>
      simp only [isSome_map_eq, List.mem_cons]
      constructor
      · intro h g hg
        rcases hg with hg | hg
        · rw [hg, h1]; rfl
        · exact (ih.mp h) g hg
      · intro h
        exact ih.mpr (fun g hg => h g (Or.inr hg))
    | none =>
      simp only [Option.isSome_none, Bool.false_eq_true, false_iff]
      intro h
      have := h f (by simp)
      rw [h1] at this
      simp at this

/-- Lengths are preserved by a successful backend projection. -/
theorem selectColumns_length (encoders : List (String × LabelEncoder))
    (c : CustomerData) :
    ∀ (fs : List String) (l : List (String × Val)),
      selectColumns encoders c fs = some l → l.length = fs.length := by
  intro fs
  induction fs with
  | nil =>
    intro l h
    simp only [selectColumns] at h
    cases h
    rfl
  | cons f t ih =>
    intro l h
    unfold selectColumns at h
    cases h1 : df_column encoders c f with
    | some v =>
      rw [h1] at h
      cases h2 : selectColumns encoders c t with
      | some rest =>
        rw [h2] at h
        cases h
        simp [ih rest h2]
      | none => rw [h2] at h; cases h
    | none => rw [h1] at h; cases h

/-- Column order is preserved by a successful backend projection. -/
theorem selectColumns_names (encoders : List (String × LabelEncoder))
    (c : CustomerData) :
    ∀ (fs : List String) (l : List (String × Val)),
      selectColumns encoders c fs = some l → l.map Prod.fst = fs := by
  intro fs
  induction fs with
  | nil =>
    intro l h
    simp only [selectColumns] at h
    cases h
    rfl
  | cons f t ih =>
    intro l h
    unfold selectColumns at h
    cases h1 : df_column encoders c f with
    | some v =>
      rw [h1] at h
      cases h2 : selectColumns encoders c t with
      | some rest =>
        rw [h2] at h
        cases h
        simp [ih rest h2]
      | none => rw [h2] at h; cases h
    | none => rw [h1] at h; cases h

/-- C6 witness: a two-class encoder and the unseen value "Maybe". -/
theorem unseen_category_fallback_witness :
    LabelEncoder.encodeFallbackZero ⟨["No", "Yes"]⟩ "Maybe" = 0 ∧
      LabelEncoder.encodeFallbackFirst ⟨["No", "Yes"]⟩ "Maybe" = 0 := by
  have h := unseen_category_fallback ⟨["No", "Yes"]⟩ "Maybe" (by simp) (by simp)
  exact ⟨h.1, h.2.1⟩

/-- C5 counterexample: with `model_features = ["NotAColumn"]` — a feature
name the builder does not populate — the backend's `df[model_features]`
raises a `KeyError` (modelled `none`) instead of defaulting the column to 0
as the claim states; no output vector is produced for any record. -/
theorem feature_vector_default_cex :
    preprocess_customer_data [] ["NotAColumn"] (fun _ q => q) sampleCustomer =
      none ∧
    ChurnPredictor.preprocess_data [] ["NotAColumn"] (fun _ q => q)
      sampleCustomer = [Val.num 0] := by
  constructor
  · simp [preprocess_customer_data, selectColumns, df_column,
      CustomerData.rawColumn, categorical_features, encodedColumn,
      lookupEncoder, List.findSome?]
  · simp [ChurnPredictor.preprocess_data, fe_ensure_features, fe_df_column,
      CustomerData.rawColumn, fe_categorical_mappings, fe_encodedColumn,
      lookupEncoder, List.findSome?, scaleCell]

/-- C5 (amended): the frontend builder satisfies the claim — for every record
the output has length `len(modelFeatures)`, position `i` carries the column
named `modelFeatures[i]`, and a feature name the builder did not populate is
set to 0 (then passed through the scaler like every other column).  The
backend builder has no defaulting: `df[model_features]` succeeds iff every
requested name is a populated column, an unpopulated name raises `KeyError`,
and on success the vector has the claimed length and column order. -/
theorem feature_vector_shape_rule (encoders : List (String × LabelEncoder))
    (mf : List String) (scaler : String → ℚ → ℚ) (c : CustomerData) :
    (ChurnPredictor.preprocess_data encoders mf scaler c).length = mf.length ∧
    (∀ i f, mf.get? i = some f →
      (ChurnPredictor.preprocess_data encoders mf scaler c).get? i =
        some (scaleCell scaler
          (f, (fe_ensure_features encoders c mf f).getD (.num 0)))) ∧
    (∀ i f, mf.get? i = some f → fe_df_column encoders c f = none →
      (ChurnPredictor.preprocess_data encoders mf scaler c).get? i =
        some (.num (scaler f 0))) ∧
    ((preprocess_customer_data encoders mf scaler c).isSome ↔
      ∀ f ∈ mf, (df_column encoders c f).isSome) ∧
    (∀ l, preprocess_customer_data encoders mf scaler c = some l →
      l.length = mf.length) ∧
    (∀ sel, selectColumns encoders c mf = some sel →
      sel.map Prod.fst = mf) := by
  have hget : ∀ i f, mf.get? i = some f →
      (ChurnPredictor.preprocess_data encoders mf scaler c).get? i =
        some (scaleCell scaler
          (f, (fe_ensure_features encoders c mf f).getD (.num 0))) := by
    intro i f hf
    unfold ChurnPredictor.preprocess_data
    rw [List.get?_map, List.get?_map, hf]
    rfl
  refine ⟨?_, hget, ?_, ?_, ?_, ?_⟩
  · unfold ChurnPredictor.preprocess_data
    simp
  · intro i f hf hnone
    have hmem : f ∈ mf := List.get?_mem hf
    rw [hget i f hf]
    unfold fe_ensure_features
    rw [hnone, if_pos hmem]
    rfl
  · unfold preprocess_customer_data
    rw [isSome_map_eq]
    exact selectColumns_isSome_iff encoders c mf
  · intro l hl
    unfold preprocess_customer_data at hl
    cases hsel : selectColumns encoders c mf with
    | some sel =>
      rw [hsel] at hl
      cases hl
      simpa using selectColumns_length encoders c mf sel hsel
    | none => rw [hsel] at hl; cases hl
  · exact selectColumns_names encoders c mf

/-- C5 witness: the amended rule at `model_features = ["tenure",
"NotAColumn"]`: the frontend output has length 2 and defaults the
unpopulated second column to 0, while the backend projection fails. -/
theorem feature_vector_shape_rule_witness :
    (ChurnPredictor.preprocess_data [] ["tenure", "NotAColumn"]
      (fun _ q => q) sampleCustomer).length = 2 ∧
    (ChurnPredictor.preprocess_data [] ["tenure", "NotAColumn"]
      (fun _ q => q) sampleCustomer).get? 1 = some (Val.num 0) ∧
    ¬(preprocess_customer_data [] ["tenure", "NotAColumn"]
      (fun _ q => q) sampleCustomer).isSome := by
  have h := feature_vector_shape_rule [] ["tenure", "NotAColumn"]
    (fun _ q => q) sampleCustomer
  refine ⟨h.1, ?_, ?_⟩
  · exact h.2.2.1 1 "NotAColumn" rfl (by
      simp [fe_df_column, CustomerData.rawColumn, fe_categorical_mappings,
        fe_encodedColumn, lookupEncoder, List.findSome?])
  · rw [h.2.2.2.1]
    intro hall
    have := hall "NotAColumn" (by simp)
    rw [show df_column [] sampleCustomer "NotAColumn" = none from by
      simp [df_column, CustomerData.rawColumn, categorical_features,
        encodedColumn, lookupEncoder, List.findSome?]] at this
    simp at this

/-- C8 counterexample: the frontend service applies the fitted scaler to the
WHOLE selected frame (`prediction_service.py` lines 277-284), so the encoded
categorical column `gender_encoded` (value 1 for "Male") leaves the scaling
step changed — here to the scaler output 7 — while the claim requires every
categorical/encoded column to be left unchanged. -/
theorem scaler_frame_effect_cex :
    fe_df_column [("gender", LabelEncoder.mk ["Female", "Male"])]
        sampleCustomer "gender_encoded" = some (Val.num 1) ∧
    ChurnPredictor.preprocess_data
        [("gender", LabelEncoder.mk ["Female", "Male"])] ["gender_encoded"]
        (fun _ _ => 7) sampleCustomer = [Val.num 7] ∧
    Val.num (7 : ℚ) ≠ Val.num 1 := by
  have h1 : fe_df_column [("gender", LabelEncoder.mk ["Female", "Male"])]
      sampleCustomer "gender_encoded" = some (Val.num 1) := by
    simp [fe_df_column, CustomerData.rawColumn, sampleCustomer,
      fe_categorical_mappings, fe_encodedColumn, lookupEncoder,
      List.findSome?, List.find?, LabelEncoder.encodeFallbackFirst,
      List.indexOf, List.findIdx, List.findIdx.go]
  refine ⟨h1, ?_, by norm_num⟩
  simp [ChurnPredictor.preprocess_data, fe_ensure_features, h1, scaleCell]

/-- C8 (amended): the backend scales exactly the continuous numeric subset of
`model_features` — a selected column whose name is not in
`numerical_features` reaches the output with the value it had before the
scaling step, and a numeric-subset column reaches it transformed; the
frontend service instead feeds the whole selected frame through the scaler,
so every output column, encoded categoricals included, is a scaler output. -/
theorem scaler_frame_effect_rule (encoders : List (String × LabelEncoder))
    (mf : List String) (scaler : String → ℚ → ℚ) (c : CustomerData)
    (sel : List (String × Val)) (l : List Val)
    (hsel : selectColumns encoders c mf = some sel)
    (hout : preprocess_customer_data encoders mf scaler c = some l) :
    (∀ i f v, sel.get? i = some (f, v) → f ∉ numerical_features →
      l.get? i = some v) ∧
    (∀ i f q, sel.get? i = some (f, Val.num q) → f ∈ numerical_features →
      l.get? i = some (Val.num (scaler f q))) ∧
    (∀ i f, mf.get? i = some f →
      (ChurnPredictor.preprocess_data encoders mf scaler c).get? i =
        some (scaleCell scaler
          (f, (fe_ensure_features encoders c mf f).getD (.num 0)))) := by
  have hl : l = sel.map (fun col =>
      if col.1 ∈ numerical_features then scaleCell scaler col else col.2) := by
    unfold preprocess_customer_data at hout
    rw [hsel] at hout
    cases hout
    rfl
  refine ⟨?_, ?_, ?_⟩
  · intro i f v hi hf
    rw [hl, List.get?_map, hi]
    simp [if_neg hf]
  · intro i f q hi hf
    rw [hl, List.get?_map, hi]
    simp [if_pos hf, scaleCell]
  · intro i f hf
    unfold ChurnPredictor.preprocess_data
    rw [List.get?_map, List.get?_map, hf]
    rfl

/-- C8 witness: two selected columns — continuous `MonthlyCharges` and
encoded `gender_encoded` — under the constant scaler 7: the backend output
scales the first and leaves the second at its pre-scaling value 1. -/
theorem scaler_frame_effect_rule_witness :
    preprocess_customer_data [("gender", LabelEncoder.mk ["Female", "Male"])]
      ["MonthlyCharges", "gender_encoded"] (fun _ _ => 7) sampleCustomer =
      some [Val.num 7, Val.num 1] ∧
    [Val.num 7, Val.num 1].get? 1 = some (Val.num 1) ∧
    [Val.num 7, Val.num 1].get? 0 = some (Val.num 7) := by
  have hsel : selectColumns [("gender", LabelEncoder.mk ["Female", "Male"])]
      sampleCustomer ["MonthlyCharges", "gender_encoded"] =
      some [("MonthlyCharges", Val.num 50), ("gender_encoded", Val.num 1)] := by
    simp [selectColumns, df_column, CustomerData.rawColumn, sampleCustomer,
      categorical_features, encodedColumn, lookupEncoder, List.findSome?,
      List.find?, LabelEncoder.encodeFallbackZero, categoricalValue,
      List.indexOf, List.findIdx, List.findIdx.go]
  have hout : preprocess_customer_data
      [("gender", LabelEncoder.mk ["Female", "Male"])]
      ["MonthlyCharges", "gender_encoded"] (fun _ _ => 7) sampleCustomer =
      some [Val.num 7, Val.num 1] := by
    simp [preprocess_customer_data, hsel, numerical_features, scaleCell]
  have h := scaler_frame_effect_rule
    [("gender", LabelEncoder.mk ["Female", "Male"])]
    ["MonthlyCharges", "gender_encoded"] (fun _ _ => 7) sampleCustomer
    [("MonthlyCharges", Val.num 50), ("gender_encoded", Val.num 1)]
    [Val.num 7, Val.num 1] hsel hout
  exact ⟨hout,
    h.1 1 "gender_encoded" (Val.num 1) rfl (by simp [numerical_features]),
    h.2.1 0 "MonthlyCharges" 50 rfl (by simp [numerical_features])⟩

/-- C9 counterexample: a batch of 101 records is rejected whole by the
backend endpoint (`main.py` lines 357-358) — the result is an HTTP 400
error, not a list of 101 entries — although the claim promises exactly `n`
entries for every input batch of `n` records. -/
theorem batch_abort_cex :
    predict_churn_batch (fun _ => Except.ok (0 : ℚ))
      (List.replicate 101 sampleCustomer) =
      Except.error "Batch size limited to 100 customers" := by
  unfold predict_churn_batch
  rw [if_pos (by simp)]

/-- Entry count of the backend batch row loop. -/
theorem predict_churn_batch_rows_length {α : Type}
    (predict : CustomerData → Except String α) :
    ∀ (i : ℕ) (cs : List CustomerData),
      (predict_churn_batch_rows predict i cs).length = cs.length := by
  intro i cs
  induction cs generalizing i with
  | nil => rfl
  | cons c t ih => simp [predict_churn_batch_rows, ih]

/-- Entry `k` of the backend batch row loop depends only on row `k`. -/
theorem predict_churn_batch_rows_get {α : Type}
    (predict : CustomerData → Except String α) :
    ∀ (i k : ℕ) (cs : List CustomerData),
      (predict_churn_batch_rows predict i cs).get? k =
        (cs.get? k).map (fun c => (mkBatchId (i + k), predict c)) := by
  intro i k cs
  induction cs generalizing i k with
  | nil => simp [predict_churn_batch_rows]
  | cons c t ih =>
    cases k with
    | zero => simp [predict_churn_batch_rows]
    | succ k =>
      simp only [predict_churn_batch_rows, List.get?, ih (i + 1) k]
      have : i + 1 + k = i + (k + 1) := by omega
      rw [this]

/-- Entry count of the frontend batch row loop. -/
theorem predict_batch_rows_length {α : Type}
    (predict : CustomerData → Except String α) :
    ∀ (i : ℕ) (cs : List CustomerData),
      (ChurnPredictor.predict_batch_rows predict i cs).length = cs.length := by
  intro i cs
  induction cs generalizing i with
  | nil => rfl
  | cons c t ih => simp [ChurnPredictor.predict_batch_rows, ih]

/-- Entry `k` of the frontend batch row loop depends only on row `k`. -/
theorem predict_batch_rows_get {α : Type}
    (predict : CustomerData → Except String α) :
    ∀ (i k : ℕ) (cs : List CustomerData),
      (ChurnPredictor.predict_batch_rows predict i cs).get? k =
        (cs.get? k).map (fun c => (i + k + 1, predict c)) := by
  intro i k cs
  induction cs generalizing i k with
  | nil => simp [ChurnPredictor.predict_batch_rows]
  | cons c t ih =>
    cases k with
    | zero => simp [ChurnPredictor.predict_batch_rows]
    | succ k =>
      simp only [ChurnPredictor.predict_batch_rows, List.get?, ih (i + 1) k]
      have : i + 1 + k = i + (k + 1) := by omega
      rw [this]

/-- C9 (amended): the frontend service, which has no size cap, returns for
EVERY batch of `n` records exactly `n` entries, entry `i` computed from row
`i` alone with id `i + 1` — so one row's failure is recorded in its own
entry and cannot abort the batch or change a sibling row's outcome; the
backend endpoint does the same, with ids `batch_i`, for every accepted batch
of at most 100 records, while a backend batch of more than 100 records is
rejected whole with an HTTP 400 before any row is scored. -/
theorem batch_length_rule {α : Type}
    (predict : CustomerData → Except String α)
    (customers : List CustomerData) :
    (customers.length ≤ 100 →
      ∃ l, predict_churn_batch predict customers = Except.ok l ∧
        l.length = customers.length ∧
        (∀ i, l.get? i =
          (customers.get? i).map (fun c => (mkBatchId i, predict c)))) ∧
    (ChurnPredictor.predict_batch predict customers).length =
      customers.length ∧
    (∀ i, (ChurnPredictor.predict_batch predict customers).get? i =
      (customers.get? i).map (fun c => (i + 1, predict c))) := by
  refine ⟨fun h => ⟨predict_churn_batch_rows predict 0 customers, ?_, ?_, ?_⟩,
    ?_, ?_⟩
  · unfold predict_churn_batch
    rw [if_neg (by omega)]
  · exact predict_churn_batch_rows_length predict 0 customers
  · intro i
    simpa using predict_churn_batch_rows_get predict 0 i customers
  · exact predict_batch_rows_length predict 0 customers
  · intro i
    simpa using predict_batch_rows_get predict 0 i customers

/-- C9 witness: a two-row batch whose first row fails — both entries are
produced, the failure is confined to entry 0, and row 1 still succeeds — and
a 101-row frontend batch, beyond the backend cap, that still yields 101
entries. -/
theorem batch_length_rule_witness :
    (∃ l, predict_churn_batch
        (fun c => if c.InternetService = "No" then Except.error "boom"
          else Except.ok (1 : ℚ))
        [sampleCustomer, fiberPhoneCustomer] = Except.ok l ∧
      l.length = 2 ∧
      l.get? 0 = some (mkBatchId 0, Except.error "boom") ∧
      l.get? 1 = some (mkBatchId 1, Except.ok 1)) ∧
    (ChurnPredictor.predict_batch
        (fun c => if c.InternetService = "No" then Except.error "boom"
          else Except.ok (1 : ℚ))
        [sampleCustomer, fiberPhoneCustomer]).length = 2 ∧
    (ChurnPredictor.predict_batch (fun _ => Except.ok (1 : ℚ))
        (List.replicate 101 sampleCustomer)).length = 101 := by
  have h := batch_length_rule
    (fun c => if c.InternetService = "No" then Except.error "boom"
      else Except.ok (1 : ℚ))
    [sampleCustomer, fiberPhoneCustomer]
  have h101 := batch_length_rule (fun _ => Except.ok (1 : ℚ))
    (List.replicate 101 sampleCustomer)
  obtain ⟨l, hok, hlen, hget⟩ := h.1 (by simp)
  have hfe := h.2.1
  refine ⟨⟨l, hok, by simpa using hlen, ?_, ?_⟩, by simpa using hfe, ?_⟩
  · rw [hget 0]
    simp [sampleCustomer]
  · rw [hget 1]
    simp [fiberPhoneCustomer, sampleCustomer]
  · rw [h101.2.1]
    simp

/-- C10: the backend batch endpoint rejects every batch of more than 100
records with the 400 error "Batch size limited to 100 customers", and does so
before any row is scored — the outcome is the same for every per-row scorer;
a batch of at most 100 records always passes the check and yields a result
list. -/
theorem batch_size_limit_rule {α : Type}
    (predict predictOther : CustomerData → Except String α)
    (customers : List CustomerData) :
    (customers.length > 100 →
      predict_churn_batch predict customers =
        Except.error "Batch size limited to 100 customers" ∧
      predict_churn_batch predict customers =
        predict_churn_batch predictOther customers) ∧
    (customers.length ≤ 100 →
      ∃ l, predict_churn_batch predict customers = Except.ok l) := by
  constructor
  · intro h
    unfold predict_churn_batch
    rw [if_pos h, if_pos h]
    exact ⟨rfl, rfl⟩
  · intro h
    unfold predict_churn_batch
    rw [if_neg (by omega)]
    exact ⟨_, rfl⟩

/-- C10 witness: a batch of 101 copies of `sampleCustomer` is rejected — for
two different row scorers alike — and the same batch truncated to 100 rows
is accepted. -/
theorem batch_size_limit_rule_witness :
    predict_churn_batch (fun _ => Except.ok (1 : ℚ))
      (List.replicate 101 sampleCustomer) =
      Except.error "Batch size limited to 100 customers" ∧
    predict_churn_batch (fun _ => Except.ok (1 : ℚ))
      (List.replicate 101 sampleCustomer) =
      predict_churn_batch (fun _ => Except.error "down")
        (List.replicate 101 sampleCustomer) ∧
    (∃ l, predict_churn_batch (fun _ => Except.ok (1 : ℚ))
      (List.replicate 100 sampleCustomer) = Except.ok l) := by
  have h1 := (batch_size_limit_rule (fun _ => Except.ok (1 : ℚ))
    (fun _ => Except.error "down")
    (List.replicate 101 sampleCustomer)).1 (by simp)
  have h2 := (batch_size_limit_rule (fun _ => Except.ok (1 : ℚ))
    (fun _ => Except.error "down")
    (List.replicate 100 sampleCustomer)).2 (by simp)
  exact ⟨h1.1, h1.2, h2⟩
